import Mathlib

/-
Verification of the row-selection controller of the data grid
(packages/grid/_modules_/grid/hooks/features/selection/useGridSelection.ts).

The controller state is the selection model (an ordered list of row ids)
together with the "last toggled" anchor ref.  The environment collects the
collaborators and configuration flags the hook reads: the rows lookup
(getRow), the optional row-selectability predicate, the visible sorted
row-id list, and the boolean props.

Row ids are strings (the TypeScript type is string | number; plain-object
key enumeration for string keys is insertion order, which the lookup model
below relies on).
-/

set_option autoImplicit false

namespace GridSelection

abbrev GridRowId := String

/-- The mutable state owned by the selection controller: the selection
model (state.selection) and the lastRowToggled ref. -/
structure GridState where
  selection : List GridRowId
  lastRowToggled : Option GridRowId
  deriving Repr, DecidableEq

/-- Collaborators and props read by useGridSelection: rowsLookup membership
(getRow truthiness), the optional isRowSelectable predicate (applied to the
row params of an id), visibleSortedGridRowIdsSelector, and the boolean
configuration props. -/
structure GridEnv where
  rowsLookup : GridRowId → Bool
  isRowSelectable : Option (GridRowId → Bool)
  visibleSortedRowIds : List GridRowId
  checkboxSelection : Bool
  disableMultipleSelection : Bool
  disableSelectionOnClick : Bool

/-- canHaveMultipleSelection = !disableMultipleSelection || checkboxSelection. -/
def canHaveMultipleSelection (env : GridEnv) : Bool :=
  !env.disableMultipleSelection || env.checkboxSelection

/-- The guard `isRowSelectable && !isRowSelectable(getRowParams(id))`:
a row is selectable when no predicate is configured or the predicate
accepts it. -/
def rowIsSelectable (env : GridEnv) (id : GridRowId) : Bool :=
  match env.isRowSelectable with
  | none => true
  | some p => p id

/-- isRowSelected: membership test in the current selection model. -/
def isRowSelected (s : GridState) (id : GridRowId) : Bool :=
  s.selection.contains id

/-- Assignment `lookup[id] = id` on a plain JS object whose values equal
their keys: a fresh key is appended at the end of the enumeration order,
an existing key keeps its position.  This models keys that are not array
indices; JS enumerates array-index-like keys ("0", "1", ...) first in
ascending numeric order, so enumeration-order conclusions drawn from this
model apply to non-index string row ids only (membership and length are
unaffected). -/
def jsObjInsert (m : List GridRowId) (id : GridRowId) : List GridRowId :=
  if m.contains id then m else m ++ [id]

/-- `delete lookup[id]` on a plain JS object whose values equal their
keys: the key is removed, the other keys keep their order. -/
def jsObjDelete (m : List GridRowId) (id : GridRowId) : List GridRowId :=
  m.filter (fun el => el != id)

/-- Modelled from the spec: the selection lookup
(selectedIdsLookupSelector, whose source file is not in scope) is "a
derived mapping from row identifier to itself, used for O(1) membership
tests and dedup during bulk updates", built from the current selection
model.  Since every value equals its key, the object is represented by the
insertion-ordered list of its keys. -/
def buildSelectionLookup (sel : List GridRowId) : List GridRowId :=
  sel.foldl jsObjInsert []

/-- selectRow(id, isSelected, resetSelection). -/
def selectRow (env : GridEnv) (s : GridState) (id : GridRowId)
    (isSelected : Bool) (resetSelection : Bool) : GridState :=
  if !rowIsSelectable env id then s
  else
    let s1 : GridState := { s with lastRowToggled := some id }
    if resetSelection then
      { s1 with selection := if isSelected then [id] else [] }
    else
      let base := s1.selection.filter (fun el => el != id)
      let newSelection := if isSelected then base ++ [id] else base
      if newSelection.length < 2 || canHaveMultipleSelection env then
        { s1 with selection := newSelection }
      else s1

/-- selectRows(ids, isSelected, resetSelection).  Does not touch the
lastRowToggled ref. -/
def selectRows (env : GridEnv) (s : GridState) (ids : List GridRowId)
    (isSelected : Bool) (resetSelection : Bool) : GridState :=
  let selectableIds := match env.isRowSelectable with
    | none => ids
    | some p => ids.filter p
  let newSelection :=
    if resetSelection then (if isSelected then selectableIds else [])
    else
      selectableIds.foldl
        (fun m id => if isSelected then jsObjInsert m id else jsObjDelete m id)
        (buildSelectionLookup s.selection)
  if newSelection.length < 2 || canHaveMultipleSelection env then
    { s with selection := newSelection }
  else s

/-- Array.prototype.indexOf: the first index of the id, or -1. -/
def jsIndexOf (l : List GridRowId) (id : GridRowId) : Int :=
  match l with
  | [] => -1
  | a :: rest =>
    if a == id then 0
    else if jsIndexOf rest id < 0 then -1 else jsIndexOf rest id + 1

/-- Indexing `arr[i]` with a possibly negative index: undefined when out
of bounds. -/
def jsGet (l : List GridRowId) (i : Int) : Option GridRowId :=
  if i < 0 then none else l[i.toNat]?

/-- Array.prototype.slice(start, stop): negative arguments count from the
end, arguments are clamped to [0, length]. -/
def jsSlice (l : List GridRowId) (start stop : Int) : List GridRowId :=
  let n : Int := (l.length : Int)
  let s := if start < 0 then max (n + start) 0 else min start n
  let e := if stop < 0 then max (n + stop) 0 else min stop n
  (l.take e.toNat).drop s.toNat

/-- The destructuring
`[start, end] = startIndex > endIndex ? [endIndex, startIndex] : [startIndex, endIndex]`. -/
def rangePair (a b : Int) : Int × Int :=
  if a > b then (b, a) else (a, b)

/-- selectRowRange({startId, endId}, isSelected, resetSelection). -/
def selectRowRange (env : GridEnv) (s : GridState) (startId endId : GridRowId)
    (isSelected : Bool) (resetSelection : Bool) : GridState :=
  if !env.rowsLookup startId || !env.rowsLookup endId then s
  else
    let p := rangePair (jsIndexOf env.visibleSortedRowIds startId)
      (jsIndexOf env.visibleSortedRowIds endId)
    selectRows env s (jsSlice env.visibleSortedRowIds p.1 (p.2 + 1))
      isSelected resetSelection

/-- expandRowRangeSelection(id).  When the inner index computation walks
off the visible list, `visibleRowIds[...]` is undefined and the delegated
selectRowRange returns early on `!getRow(undefined)`; this is the `none`
branch. -/
def expandRowRangeSelection (env : GridEnv) (s : GridState) (id : GridRowId) :
    GridState :=
  let startId := s.lastRowToggled.getD id
  let isSel := isRowSelected s id
  let endIdOpt : Option GridRowId :=
    if isSel then
      let startIndex := jsIndexOf env.visibleSortedRowIds startId
      let endIndex := jsIndexOf env.visibleSortedRowIds id
      if startIndex > endIndex then jsGet env.visibleSortedRowIds (endIndex + 1)
      else jsGet env.visibleSortedRowIds (endIndex - 1)
    else some id
  let s1 : GridState := { s with lastRowToggled := some id }
  match endIdOpt with
  | some endId => selectRowRange env s1 startId endId (!isSel) false
  | none => s1

/-- handleRowClick(params, event) with the event's modifier flags. -/
def handleRowClick (env : GridEnv) (s : GridState) (id : GridRowId)
    (shiftKey ctrlKey metaKey : Bool) : GridState :=
  if env.disableSelectionOnClick then s
  else
    let hasCtrlKey := metaKey || ctrlKey
    if shiftKey && (canHaveMultipleSelection env || env.checkboxSelection) then
      expandRowRangeSelection env s id
    else
      let isMultipleSelectionDisabled := !env.checkboxSelection && !hasCtrlKey
      if !canHaveMultipleSelection env || isMultipleSelectionDisabled then
        selectRow env s id
          (if hasCtrlKey || env.checkboxSelection then !isRowSelected s id else true)
          true
      else
        selectRow env s id (!isRowSelected s id) false

/-- handleRowSelectionCheckboxChange(params, event): shift-held triggers
range expansion, otherwise the row's membership is set to the checkbox
value (selectRow with resetSelection left at its default false). -/
def handleRowSelectionCheckboxChange (env : GridEnv) (s : GridState) (id : GridRowId)
    (value : Bool) (shiftKey : Bool) : GridState :=
  if shiftKey then expandRowRangeSelection env s id
  else selectRow env s id value false

/-- The rows-changed effect: prunes selected ids that are no longer in the
rows lookup; the Bool records whether setSelectionModel was invoked. -/
def rowsChangedEffect (env : GridEnv) (s : GridState) : GridState × Bool :=
  let res := s.selection.foldl
    (fun (acc : List GridRowId × Bool) id =>
      if env.rowsLookup id then acc else (jsObjDelete acc.1 id, true))
    (buildSelectionLookup s.selection, false)
  if res.2 then ({ s with selection := res.1 }, true) else (s, false)

/-- The prop-synchronization effect for an undefined prop (none) or a
normalized array prop (some): when defined it overwrites the internal
model unconditionally.  (A null selectionModel prop, which the source
would pass through to setSelectionModel as-is, is outside this model.) -/
def propSyncEffect (propSelectionModel : Option (List GridRowId))
    (s : GridState) : GridState :=
  match propSelectionModel with
  | none => s
  | some m => { s with selection := m }

/-- The isRowSelectable-changed effect: when a predicate is configured it
re-filters the current selection, invoking setSelectionModel only when
rows were actually dropped. -/
def selectableChangedEffect (env : GridEnv) (s : GridState) : GridState :=
  match env.isRowSelectable with
  | none => s
  | some p =>
    let newSelection := s.selection.filter (fun id => p id)
    if newSelection.length < s.selection.length then
      { s with selection := newSelection }
    else s

/-- The contiguous inclusive sublist of `l` between positions `i` and `j`
(in either order), as the spec describes the delegated span. -/
def inclusiveSpan (l : List GridRowId) (i j : Nat) : List GridRowId :=
  (l.take (max i j + 1)).drop (min i j)

/-- Row membership given by a finite list of known row ids. -/
def rowsIn (ids : List GridRowId) : GridRowId → Bool :=
  fun id => ids.contains id

/-- A three-row grid allowing multiple selection. -/
def envMulti : GridEnv :=
  { rowsLookup := rowsIn ["r1", "r2", "r3"]
    isRowSelectable := none
    visibleSortedRowIds := ["r1", "r2", "r3"]
    checkboxSelection := false
    disableMultipleSelection := false
    disableSelectionOnClick := false }

/-- The same grid with disableMultipleSelection set (checkbox mode off). -/
def envSingle : GridEnv :=
  { envMulti with disableMultipleSelection := true }

/-- The empty starting state. -/
def emptyState : GridState := { selection := [], lastRowToggled := none }

/-- The selection list produced by the rows-changed effect when it does
change something: the lookup with every missing id deleted. -/
def pruneFold (env : GridEnv) (sel : List GridRowId) : List GridRowId :=
  sel.foldl (fun m id => if env.rowsLookup id then m else jsObjDelete m id)
    (buildSelectionLookup sel)

/-- The non-reset result a selectRows call would install: the selection
lookup updated by the selectable ids (isSelected fixed). -/
def toggledBulkSelection (env : GridEnv) (s : GridState) (ids : List GridRowId)
    (isSel : Bool) : List GridRowId :=
  (match env.isRowSelectable with
    | none => ids
    | some p => ids.filter p).foldl
    (fun m id => if isSel then jsObjInsert m id else jsObjDelete m id)
    (buildSelectionLookup s.selection)

/-! ### Lemmas about the insertion-ordered lookup object -/

theorem mem_jsObjInsert (m : List GridRowId) (id x : GridRowId) :
    x ∈ jsObjInsert m id ↔ x ∈ m ∨ x = id := by
  unfold jsObjInsert
  split
  · rename_i hc
    have hid : id ∈ m := by simpa using hc
    constructor
    · exact Or.inl
    · rintro (hx | rfl)
      · exact hx
      · exact hid
  · simp [List.mem_append]

theorem mem_jsObjDelete (m : List GridRowId) (id x : GridRowId) :
    x ∈ jsObjDelete m id ↔ x ∈ m ∧ x ≠ id := by
  simp [jsObjDelete]

theorem mem_foldl_insert (ids : List GridRowId) :
    ∀ (m : List GridRowId) (x : GridRowId),
      x ∈ ids.foldl jsObjInsert m ↔ x ∈ m ∨ x ∈ ids := by
  induction ids with
  | nil => intro m x; simp
  | cons a rest ih =>
    intro m x
    simp only [List.foldl_cons, ih, mem_jsObjInsert, List.mem_cons]
    tauto

theorem mem_foldl_delete (ids : List GridRowId) :
    ∀ (m : List GridRowId) (x : GridRowId),
      x ∈ ids.foldl jsObjDelete m ↔ x ∈ m ∧ x ∉ ids := by
  induction ids with
  | nil => intro m x; simp
  | cons a rest ih =>
    intro m x
    simp only [List.foldl_cons, ih, mem_jsObjDelete, List.mem_cons]
    tauto

theorem mem_buildSelectionLookup (sel : List GridRowId) (x : GridRowId) :
    x ∈ buildSelectionLookup sel ↔ x ∈ sel := by
  simp [buildSelectionLookup, mem_foldl_insert]

theorem nodup_jsObjInsert {m : List GridRowId} (id : GridRowId) (h : m.Nodup) :
    (jsObjInsert m id).Nodup := by
  unfold jsObjInsert
  split
  · exact h
  · rename_i hc
    have hid : id ∉ m := by simpa using hc
    apply List.Nodup.append h (List.nodup_singleton id)
    intro a ham hain
    rw [List.mem_singleton] at hain
    subst hain
    exact hid ham

theorem nodup_jsObjDelete {m : List GridRowId} (id : GridRowId) (h : m.Nodup) :
    (jsObjDelete m id).Nodup :=
  h.filter _

theorem nodup_foldl_insert (ids : List GridRowId) :
    ∀ m : List GridRowId, m.Nodup → (ids.foldl jsObjInsert m).Nodup := by
  induction ids with
  | nil => intro m h; simpa
  | cons a rest ih => intro m h; exact ih _ (nodup_jsObjInsert a h)

theorem nodup_buildSelectionLookup (sel : List GridRowId) :
    (buildSelectionLookup sel).Nodup :=
  nodup_foldl_insert sel [] List.nodup_nil

theorem nodup_foldl_toggle (b : Bool) (ids : List GridRowId) :
    ∀ m : List GridRowId, m.Nodup →
      (ids.foldl (fun m id => if b then jsObjInsert m id else jsObjDelete m id) m).Nodup := by
  induction ids with
  | nil => intro m h; simpa
  | cons a rest ih =>
    intro m h
    refine ih _ ?_
    cases b
    · simpa using nodup_jsObjDelete a h
    · simpa using nodup_jsObjInsert a h

theorem length_jsObjInsert_le (m : List GridRowId) (id : GridRowId) :
    (jsObjInsert m id).length ≤ m.length + 1 := by
  unfold jsObjInsert
  split
  · omega
  · simp

theorem length_foldl_insert_le (ids : List GridRowId) :
    ∀ m : List GridRowId, (ids.foldl jsObjInsert m).length ≤ m.length + ids.length := by
  induction ids with
  | nil => intro m; simp
  | cons a rest ih =>
    intro m
    have h1 := ih (jsObjInsert m a)
    have h2 := length_jsObjInsert_le m a
    simp only [List.foldl_cons, List.length_cons]
    omega

theorem length_buildSelectionLookup_le (sel : List GridRowId) :
    (buildSelectionLookup sel).length ≤ sel.length := by
  simpa using length_foldl_insert_le sel []

theorem length_jsObjDelete_le (m : List GridRowId) (id : GridRowId) :
    (jsObjDelete m id).length ≤ m.length :=
  m.length_filter_le _

theorem foldl_insert_append (ids : List GridRowId) :
    ∀ m : List GridRowId, ids.Nodup → (∀ x ∈ ids, x ∉ m) →
      ids.foldl jsObjInsert m = m ++ ids := by
  induction ids with
  | nil => intro m _ _; simp
  | cons a rest ih =>
    intro m hnd hdis
    have ha : a ∉ m := hdis a (by simp)
    have h1 : jsObjInsert m a = m ++ [a] := by
      unfold jsObjInsert
      rw [if_neg]
      simpa using ha
    have hnd2 := (List.nodup_cons.mp hnd).2
    have hna := (List.nodup_cons.mp hnd).1
    rw [List.foldl_cons, h1, ih (m ++ [a]) hnd2 ?hdis2]
    · simp
    case hdis2 =>
      intro x hx hxm
      rw [List.mem_append, List.mem_singleton] at hxm
      rcases hxm with hxm | rfl
      · exact hdis x (by simp [hx]) hxm
      · exact hna hx

theorem buildSelectionLookup_eq_self {sel : List GridRowId} (h : sel.Nodup) :
    buildSelectionLookup sel = sel := by
  have := foldl_insert_append sel [] h (by simp)
  simpa [buildSelectionLookup] using this

/-! ### Lemmas about jsIndexOf, jsSlice and rangePair -/

theorem jsIndexOf_ofNat_lt (id : GridRowId) :
    ∀ (l : List GridRowId) (i : Nat), jsIndexOf l id = (i : Int) → i < l.length := by
  intro l
  induction l with
  | nil =>
    intro i h
    simp only [jsIndexOf] at h
    omega
  | cons a rest ih =>
    intro i h
    simp only [jsIndexOf] at h
    split at h
    · have : i = 0 := by omega
      simp [this]
    · split at h
      · omega
      · rename_i hne hr
        have hnn : (0 : Int) ≤ jsIndexOf rest id := by omega
        have h2 : jsIndexOf rest id = ((jsIndexOf rest id).toNat : Int) :=
          (Int.toNat_of_nonneg hnn).symm
        have h3 := ih (jsIndexOf rest id).toNat h2
        have h4 : i = (jsIndexOf rest id).toNat + 1 := by omega
        simp only [List.length_cons]
        omega

theorem rangePair_comm (a b : Int) : rangePair a b = rangePair b a := by
  unfold rangePair
  rcases lt_trichotomy a b with h | h | h
  · rw [if_neg (by omega), if_pos (by omega)]
  · subst h; simp
  · rw [if_pos (by omega), if_neg (by omega)]

theorem rangePair_ofNat (i j : Nat) :
    rangePair ((i : Int)) ((j : Int)) = (((min i j : Nat) : Int), ((max i j : Nat) : Int)) := by
  unfold rangePair
  split
  · rename_i h
    refine Prod.ext ?_ ?_ <;> simp <;> omega
  · rename_i h
    refine Prod.ext ?_ ?_ <;> simp <;> omega

theorem jsSlice_span (l : List GridRowId) (i j : Nat)
    (hi : i < l.length) (hj : j < l.length) :
    jsSlice l (((min i j : Nat) : Int)) (((max i j : Nat) : Int) + 1) = inclusiveSpan l i j := by
  have h1 : ¬ (((min i j : Nat) : Int) < 0) := by omega
  have h2 : ¬ (((max i j : Nat) : Int) + 1 < 0) := by omega
  simp only [jsSlice, inclusiveSpan, if_neg h1, if_neg h2]
  have e1 : min (((min i j : Nat) : Int)) ((l.length : Int)) = ((min i j : Nat) : Int) := by
    rw [min_eq_left]
    omega
  have e2 : min (((max i j : Nat) : Int) + 1) ((l.length : Int)) = ((max i j : Nat) : Int) + 1 := by
    rw [min_eq_left]
    omega
  rw [e1, e2]
  have e3 : (((min i j : Nat) : Int)).toNat = min i j := by omega
  have e4 : (((max i j : Nat) : Int) + 1).toNat = max i j + 1 := by omega
  rw [e3, e4]

/-! ### Behavioral lemmas for selectRows and selectRowRange -/

theorem selectRows_mem_select (env : GridEnv) (s : GridState) (ids : List GridRowId)
    (hp : env.isRowSelectable = none) (hm : canHaveMultipleSelection env = true)
    (x : GridRowId) :
    x ∈ (selectRows env s ids true false).selection ↔ x ∈ s.selection ∨ x ∈ ids := by
  unfold selectRows
  rw [hp, hm]
  simp only [Bool.or_true, if_true, if_pos rfl]
  simp [mem_foldl_insert, mem_buildSelectionLookup]

theorem selectRows_mem_deselect (env : GridEnv) (s : GridState) (ids : List GridRowId)
    (hp : env.isRowSelectable = none) (hm : canHaveMultipleSelection env = true)
    (x : GridRowId) :
    x ∈ (selectRows env s ids false false).selection ↔ x ∈ s.selection ∧ x ∉ ids := by
  unfold selectRows
  rw [hp, hm]
  simp only [Bool.or_true, if_true]
  simp [mem_foldl_delete, mem_buildSelectionLookup]

theorem selectRows_lastRowToggled (env : GridEnv) (s : GridState) (ids : List GridRowId)
    (isSel rst : Bool) :
    (selectRows env s ids isSel rst).lastRowToggled = s.lastRowToggled := by
  unfold selectRows
  repeat' split
  all_goals first
    | rfl
    | (dsimp only; split <;> rfl)

theorem selectRowRange_span (env : GridEnv) (s : GridState) (a b : GridRowId)
    (isSel rst : Bool) (i j : Nat)
    (ha : env.rowsLookup a = true) (hb : env.rowsLookup b = true)
    (hia : jsIndexOf env.visibleSortedRowIds a = (i : Int))
    (hjb : jsIndexOf env.visibleSortedRowIds b = (j : Int)) :
    selectRowRange env s a b isSel rst
      = selectRows env s (inclusiveSpan env.visibleSortedRowIds i j) isSel rst := by
  have hi := jsIndexOf_ofNat_lt a env.visibleSortedRowIds i hia
  have hj := jsIndexOf_ofNat_lt b env.visibleSortedRowIds j hjb
  unfold selectRowRange
  rw [ha, hb]
  simp only [Bool.not_true, Bool.or_self, Bool.false_or, if_false]
  rw [hia, hjb, rangePair_ofNat]
  rw [jsSlice_span env.visibleSortedRowIds i j hi hj]
  simp

/-! ### Lemmas about the rows-changed pruning fold -/

theorem prune_foldl_snd (env : GridEnv) (ids : List GridRowId) :
    ∀ (m : List GridRowId) (b : Bool),
      (ids.foldl (fun (acc : List GridRowId × Bool) id =>
          if env.rowsLookup id then acc else (jsObjDelete acc.1 id, true)) (m, b)).2
        = (b || ids.any (fun id => !env.rowsLookup id)) := by
  induction ids with
  | nil => intro m b; simp
  | cons a rest ih =>
    intro m b
    by_cases ha : env.rowsLookup a = true
    · simp [ha, ih]
    · have ha2 : env.rowsLookup a = false := by simpa using ha
      simp [ha2, ih]

theorem prune_foldl_fst (env : GridEnv) (ids : List GridRowId) :
    ∀ (m : List GridRowId) (b : Bool),
      (ids.foldl (fun (acc : List GridRowId × Bool) id =>
          if env.rowsLookup id then acc else (jsObjDelete acc.1 id, true)) (m, b)).1
        = ids.foldl (fun m id => if env.rowsLookup id then m else jsObjDelete m id) m := by
  induction ids with
  | nil => intro m b; simp
  | cons a rest ih =>
    intro m b
    by_cases ha : env.rowsLookup a = true
    · simp [ha, ih]
    · have ha2 : env.rowsLookup a = false := by simpa using ha
      simp [ha2, ih]

theorem mem_prune_foldl (env : GridEnv) (ids : List GridRowId) :
    ∀ (m : List GridRowId) (x : GridRowId),
      x ∈ ids.foldl (fun m id => if env.rowsLookup id then m else jsObjDelete m id) m
        ↔ x ∈ m ∧ (x ∈ ids → env.rowsLookup x = true) := by
  induction ids with
  | nil => intro m x; simp
  | cons a rest ih =>
    intro m x
    by_cases ha : env.rowsLookup a = true
    · simp only [List.foldl_cons, if_pos ha, ih, List.mem_cons]
      constructor
      · rintro ⟨hm, him⟩
        refine ⟨hm, ?_⟩
        rintro (rfl | h)
        · exact ha
        · exact him h
      · rintro ⟨hm, him⟩
        exact ⟨hm, fun h => him (Or.inr h)⟩
    · have ha2 : env.rowsLookup a = false := by simpa using ha
      simp only [List.foldl_cons, ha2, Bool.false_eq_true, if_false, ih, mem_jsObjDelete,
        List.mem_cons]
      constructor
      · rintro ⟨⟨hm, hne⟩, him⟩
        refine ⟨hm, ?_⟩
        rintro (rfl | h)
        · exact absurd rfl hne
        · exact him h
      · rintro ⟨hm, him⟩
        have hne : x ≠ a := by
          rintro rfl
          rw [him (Or.inl rfl)] at ha2
          cases ha2
        exact ⟨⟨hm, hne⟩, fun h => him (Or.inr h)⟩

theorem length_prune_foldl_le (env : GridEnv) (ids : List GridRowId) :
    ∀ m : List GridRowId,
      (ids.foldl (fun m id => if env.rowsLookup id then m else jsObjDelete m id) m).length
        ≤ m.length := by
  induction ids with
  | nil => intro m; simp
  | cons a rest ih =>
    intro m
    by_cases ha : env.rowsLookup a = true
    · simpa [ha] using ih m
    · have ha2 : env.rowsLookup a = false := by simpa using ha
      have h1 := ih (jsObjDelete m a)
      have h2 := length_jsObjDelete_le m a
      simp only [List.foldl_cons, ha2, Bool.false_eq_true, if_false]
      omega

theorem mem_pruneFold (env : GridEnv) (sel : List GridRowId) (x : GridRowId) :
    x ∈ pruneFold env sel ↔ x ∈ sel ∧ env.rowsLookup x = true := by
  unfold pruneFold
  rw [mem_prune_foldl, mem_buildSelectionLookup]
  tauto

/-! ### Behavioral lemmas for selectRow, expandRowRangeSelection and
handleRowClick -/

theorem selectRow_reset_eq (env : GridEnv) (s : GridState) (id : GridRowId)
    (isSel : Bool) (hsel : rowIsSelectable env id = true) :
    selectRow env s id isSel true
      = { selection := if isSel then [id] else [], lastRowToggled := some id } := by
  unfold selectRow
  rw [hsel]
  simp

theorem selectRow_toggle_multi_eq (env : GridEnv) (s : GridState) (id : GridRowId)
    (isSel : Bool) (hsel : rowIsSelectable env id = true)
    (hm : canHaveMultipleSelection env = true) :
    selectRow env s id isSel false
      = { selection :=
            if isSel then s.selection.filter (fun el => el != id) ++ [id]
            else s.selection.filter (fun el => el != id)
          lastRowToggled := some id } := by
  unfold selectRow
  rw [hsel]
  simp [hm]

theorem selectRowRange_lastRowToggled (env : GridEnv) (s : GridState)
    (a b : GridRowId) (isSel rst : Bool) :
    (selectRowRange env s a b isSel rst).lastRowToggled = s.lastRowToggled := by
  unfold selectRowRange
  split
  · rfl
  · exact selectRows_lastRowToggled env s _ isSel rst

theorem expand_not_selected_delegates (env : GridEnv) (s : GridState) (id : GridRowId)
    (h : isRowSelected s id = false) :
    expandRowRangeSelection env s id
      = selectRowRange env { s with lastRowToggled := some id }
          (s.lastRowToggled.getD id) id true false := by
  simp [expandRowRangeSelection, h]

theorem expand_selected_delegates (env : GridEnv) (s : GridState) (id e2 : GridRowId)
    (h : isRowSelected s id = true)
    (he : (if jsIndexOf env.visibleSortedRowIds (s.lastRowToggled.getD id)
              > jsIndexOf env.visibleSortedRowIds id
           then jsGet env.visibleSortedRowIds (jsIndexOf env.visibleSortedRowIds id + 1)
           else jsGet env.visibleSortedRowIds (jsIndexOf env.visibleSortedRowIds id - 1))
        = some e2) :
    expandRowRangeSelection env s id
      = selectRowRange env { s with lastRowToggled := some id }
          (s.lastRowToggled.getD id) e2 false false := by
  unfold expandRowRangeSelection
  rw [h]
  dsimp only
  rw [he]
  simp

theorem expand_selected_oob (env : GridEnv) (s : GridState) (id : GridRowId)
    (h : isRowSelected s id = true)
    (he : (if jsIndexOf env.visibleSortedRowIds (s.lastRowToggled.getD id)
              > jsIndexOf env.visibleSortedRowIds id
           then jsGet env.visibleSortedRowIds (jsIndexOf env.visibleSortedRowIds id + 1)
           else jsGet env.visibleSortedRowIds (jsIndexOf env.visibleSortedRowIds id - 1))
        = none) :
    expandRowRangeSelection env s id = { s with lastRowToggled := some id } := by
  unfold expandRowRangeSelection
  rw [h]
  dsimp only
  rw [he]
  simp

theorem handleRowClick_point_reset (env : GridEnv) (s : GridState) (id : GridRowId)
    (ctrl mk : Bool)
    (hclick : env.disableSelectionOnClick = false)
    (hsel : rowIsSelectable env id = true)
    (hcase : canHaveMultipleSelection env = false
      ∨ (env.checkboxSelection = false ∧ (mk || ctrl) = false)) :
    (handleRowClick env s id false ctrl mk).selection
      = if ((mk || ctrl) || env.checkboxSelection) && isRowSelected s id then []
        else [id] := by
  have hreset : (!canHaveMultipleSelection env
      || (!env.checkboxSelection && !(mk || ctrl))) = true := by
    rcases hcase with hm | ⟨hcb, hk⟩
    · rw [hm]; simp
    · rw [hcb, hk]; simp
  unfold handleRowClick
  rw [hclick]
  simp only [Bool.false_eq_true, if_false, Bool.false_and, hreset, if_true]
  rw [selectRow_reset_eq env s id _ hsel]
  cases hcb2 : ((mk || ctrl) || env.checkboxSelection)
    <;> cases hsel2 : isRowSelected s id <;> simp [hcb2, hsel2]

theorem handleRowClick_point_toggle (env : GridEnv) (s : GridState) (id : GridRowId)
    (ctrl mk : Bool)
    (hclick : env.disableSelectionOnClick = false)
    (hsel : rowIsSelectable env id = true)
    (hm : canHaveMultipleSelection env = true)
    (hcase : env.checkboxSelection = true ∨ (mk || ctrl) = true) :
    (handleRowClick env s id false ctrl mk).selection
      = if isRowSelected s id then s.selection.filter (fun el => el != id)
        else s.selection.filter (fun el => el != id) ++ [id] := by
  have hreset : (!canHaveMultipleSelection env
      || (!env.checkboxSelection && !(mk || ctrl))) = false := by
    rw [hm]
    rcases hcase with h | h <;> rw [h] <;> simp
  unfold handleRowClick
  rw [hclick]
  simp only [Bool.false_eq_true, if_false, Bool.false_and, hreset, if_true]
  rw [selectRow_toggle_multi_eq env s id _ hsel hm]
  cases hsel2 : isRowSelected s id <;> simp [hsel2]

/-! ### Length-bound lemmas for the single-selection invariant -/

theorem guarded_set_length_le (s : GridState) (ns : List GridRowId) (cmulti : Bool)
    (hm : cmulti = false) (hs : s.selection.length ≤ 1) :
    (if (ns.length < 2 || cmulti) = true then { s with selection := ns }
      else s).selection.length ≤ 1 := by
  split
  · rename_i hg
    rw [hm] at hg
    simp only [Bool.or_false, decide_eq_true_eq] at hg
    dsimp only
    omega
  · exact hs

theorem selectRow_selection_length_le (env : GridEnv) (s : GridState) (id : GridRowId)
    (isSel rst : Bool) (hm : canHaveMultipleSelection env = false)
    (hs : s.selection.length ≤ 1) :
    (selectRow env s id isSel rst).selection.length ≤ 1 := by
  unfold selectRow
  split
  · exact hs
  · dsimp only
    split
    · dsimp only
      split <;> simp
    · exact guarded_set_length_le { s with lastRowToggled := some id } _ _ hm hs

theorem selectRows_selection_length_le (env : GridEnv) (s : GridState)
    (ids : List GridRowId) (isSel rst : Bool)
    (hm : canHaveMultipleSelection env = false) (hs : s.selection.length ≤ 1) :
    (selectRows env s ids isSel rst).selection.length ≤ 1 := by
  unfold selectRows
  split
  all_goals exact guarded_set_length_le s _ _ hm hs

theorem selectRowRange_selection_length_le (env : GridEnv) (s : GridState)
    (a b : GridRowId) (isSel rst : Bool)
    (hm : canHaveMultipleSelection env = false) (hs : s.selection.length ≤ 1) :
    (selectRowRange env s a b isSel rst).selection.length ≤ 1 := by
  unfold selectRowRange
  split
  · exact hs
  · exact selectRows_selection_length_le env s _ isSel rst hm hs

theorem expandRowRangeSelection_selection_length_le (env : GridEnv) (s : GridState)
    (id : GridRowId) (hm : canHaveMultipleSelection env = false)
    (hs : s.selection.length ≤ 1) :
    (expandRowRangeSelection env s id).selection.length ≤ 1 := by
  unfold expandRowRangeSelection
  dsimp only
  split
  · exact selectRowRange_selection_length_le env _ _ _ _ false hm hs
  · exact hs

theorem handleRowClick_selection_length_le (env : GridEnv) (s : GridState)
    (id : GridRowId) (shift ctrl mk : Bool)
    (hm : canHaveMultipleSelection env = false) (hc : env.checkboxSelection = false)
    (hs : s.selection.length ≤ 1) :
    (handleRowClick env s id shift ctrl mk).selection.length ≤ 1 := by
  unfold handleRowClick
  split
  · exact hs
  · simp only [hm, hc, Bool.or_false, Bool.and_false, Bool.false_eq_true, if_false,
      Bool.not_false, Bool.true_or, if_true]
    exact selectRow_selection_length_le env s id _ true hm hs

theorem handleRowSelectionCheckboxChange_selection_length_le (env : GridEnv)
    (s : GridState) (id : GridRowId) (value shift : Bool)
    (hm : canHaveMultipleSelection env = false) (hs : s.selection.length ≤ 1) :
    (handleRowSelectionCheckboxChange env s id value shift).selection.length ≤ 1 := by
  unfold handleRowSelectionCheckboxChange
  split
  · exact expandRowRangeSelection_selection_length_le env s id hm hs
  · exact selectRow_selection_length_le env s id value false hm hs

theorem selectableChangedEffect_selection_length_le (env : GridEnv) (s : GridState)
    (hs : s.selection.length ≤ 1) :
    (selectableChangedEffect env s).selection.length ≤ 1 := by
  unfold selectableChangedEffect
  split
  · exact hs
  · rename_i p heq
    dsimp only
    split
    · have h1 := s.selection.length_filter_le (fun id => p id)
      dsimp only
      omega
    · exact hs

theorem length_pruneFold_le (env : GridEnv) (sel : List GridRowId) :
    (pruneFold env sel).length ≤ sel.length :=
  le_trans (length_prune_foldl_le env sel (buildSelectionLookup sel))
    (length_buildSelectionLookup_le sel)

theorem rowsChangedEffect_selection_length_le (env : GridEnv) (s : GridState)
    (hs : s.selection.length ≤ 1) :
    (rowsChangedEffect env s).1.selection.length ≤ 1 := by
  unfold rowsChangedEffect
  dsimp only
  split
  · dsimp only
    rw [prune_foldl_fst]
    have h1 := length_pruneFold_le env s.selection
    unfold pruneFold at h1
    omega
  · exact hs

/-! ### Nodup lemmas for the selection model -/

theorem nodup_filter_append (sel : List GridRowId) (id : GridRowId)
    (h : sel.Nodup) :
    (sel.filter (fun el => el != id) ++ [id]).Nodup := by
  apply List.Nodup.append (h.filter _) (List.nodup_singleton id)
  intro a ha hb
  rw [List.mem_singleton] at hb
  subst hb
  rw [List.mem_filter] at ha
  simp at ha

theorem nodup_foldl_delete (ids : List GridRowId) :
    ∀ m : List GridRowId, m.Nodup → (ids.foldl jsObjDelete m).Nodup := by
  induction ids with
  | nil => intro m h; simpa
  | cons a rest ih => intro m h; exact ih _ (nodup_jsObjDelete a h)

theorem selectRow_nodup (env : GridEnv) (s : GridState) (id : GridRowId)
    (isSel rst : Bool) (h : s.selection.Nodup) :
    (selectRow env s id isSel rst).selection.Nodup := by
  unfold selectRow
  split
  all_goals try dsimp only
  all_goals repeat' split
  all_goals first
    | exact h
    | exact List.nodup_singleton id
    | exact List.nodup_nil
    | exact nodup_filter_append s.selection id h
    | exact h.filter _

theorem foldl_insert_mem_id (ids : List GridRowId) :
    ∀ m : List GridRowId, (∀ x ∈ ids, x ∈ m) → ids.foldl jsObjInsert m = m := by
  induction ids with
  | nil => intro m _; rfl
  | cons a rest ih =>
    intro m hmem
    have ha : a ∈ m := hmem a (by simp)
    have h1 : jsObjInsert m a = m := by
      unfold jsObjInsert
      rw [if_pos]
      simpa using ha
    rw [List.foldl_cons, h1, ih m (fun x hx => hmem x (by simp [hx]))]

theorem selectRows_toggle_nodup (env : GridEnv) (s : GridState) (ids : List GridRowId)
    (isSel : Bool) (h : s.selection.Nodup) :
    (selectRows env s ids isSel false).selection.Nodup := by
  unfold selectRows
  cases hp : env.isRowSelectable
  all_goals
    dsimp only
    simp only [Bool.false_eq_true, if_false]
    repeat' split
    all_goals first
      | exact h
      | exact nodup_foldl_insert _ _ (nodup_buildSelectionLookup s.selection)
      | exact nodup_foldl_delete _ _ (nodup_buildSelectionLookup s.selection)

theorem selectRows_nodup (env : GridEnv) (s : GridState) (ids : List GridRowId)
    (isSel rst : Bool) (h : s.selection.Nodup) (hids : ids.Nodup) :
    (selectRows env s ids isSel rst).selection.Nodup := by
  unfold selectRows
  split
  all_goals dsimp only
  all_goals repeat' split
  all_goals first
    | exact h
    | exact List.nodup_nil
    | exact hids
    | exact hids.filter _
    | exact nodup_foldl_insert _ _ (nodup_buildSelectionLookup s.selection)
    | exact nodup_foldl_delete _ _ (nodup_buildSelectionLookup s.selection)

/-- C1, counterexample: with multiple selection disabled (checkbox mode
off) and another row already selected, selectRow(r1, true, false) is
rejected by the single-selection guard, so isRowSelected(r1) stays false
afterwards, contradicting the claim as stated. -/
theorem selectRow_isRowSelected_cex :
    isRowSelected
      (selectRow envSingle { selection := ["r2"], lastRowToggled := none } "r1" true false)
      "r1" = false := by decide

/-- C1 (amended): provided the selectability predicate accepts the row and
the single-selection guard cannot reject the update (multiple selection is
possible, or no other row is currently selected), isRowSelected(r) is true
immediately after selectRow(r, true, false) and false immediately after
selectRow(r, false, false). -/
theorem isRowSelected_after_selectRow (env : GridEnv) (s : GridState) (id : GridRowId)
    (hsel : rowIsSelectable env id = true)
    (hguard : canHaveMultipleSelection env = true
      ∨ s.selection.filter (fun el => el != id) = []) :
    isRowSelected (selectRow env s id true false) id = true ∧
    isRowSelected (selectRow env s id false false) id = false := by
  rcases hguard with hm | hf
  · constructor <;> simp [selectRow, hsel, hm, isRowSelected]
  · constructor <;> simp [selectRow, hsel, hf, isRowSelected]

/-- C1 witness: a concrete instance of the amended theorem. -/
theorem isRowSelected_after_selectRow_inst :
    isRowSelected (selectRow envMulti emptyState "r1" true false) "r1" = true ∧
    isRowSelected (selectRow envMulti emptyState "r1" false false) "r1" = false :=
  isRowSelected_after_selectRow envMulti emptyState "r1" (by decide) (Or.inl (by decide))

/-- C9: selectRow in toggle mode (resetSelection = false) leaves the whole
state unchanged when the selectability predicate rejects the row; when the
predicate accepts it, the lastRowToggled anchor is set to the row id even
when the single-selection guard rejects the update, in which case the
selection model itself is unchanged. -/
theorem selectRow_anchor_frame (env : GridEnv) (s : GridState) (id : GridRowId)
    (isSel : Bool) :
    (rowIsSelectable env id = false → selectRow env s id isSel false = s) ∧
    (rowIsSelectable env id = true →
      (selectRow env s id isSel false).lastRowToggled = some id) ∧
    (rowIsSelectable env id = true →
      ((if isSel then s.selection.filter (fun el => el != id) ++ [id]
        else s.selection.filter (fun el => el != id)).length < 2
        || canHaveMultipleSelection env) = false →
      (selectRow env s id isSel false).selection = s.selection) := by
  refine ⟨?_, ?_, ?_⟩
  · intro h
    simp [selectRow, h]
  · intro h
    unfold selectRow
    rw [h]
    simp only [Bool.not_true, Bool.false_eq_true, if_false]
    split <;> split <;> rfl
  · intro h hg
    unfold selectRow
    rw [h]
    simp only [Bool.not_true, Bool.false_eq_true, if_false]
    rw [hg]
    simp

/-- C9 witness: the guard rejects growing the selection beyond one row,
yet the anchor is updated while the model is unchanged. -/
theorem selectRow_anchor_frame_inst :
    (selectRow envSingle { selection := ["r2"], lastRowToggled := none } "r1" true
      false).lastRowToggled = some "r1" ∧
    (selectRow envSingle { selection := ["r2"], lastRowToggled := none } "r1" true
      false).selection = ["r2"] := by
  have h := selectRow_anchor_frame envSingle
    { selection := ["r2"], lastRowToggled := none } "r1" true
  exact ⟨h.2.1 (by decide), h.2.2 (by decide) (by decide)⟩

/-- C4: selectRowRange produces the same resulting state whichever of the
two ids is passed as startId and which as endId, for every environment,
starting state, isSelected and resetSelection argument. -/
theorem selectRowRange_symm (env : GridEnv) (s : GridState) (a b : GridRowId)
    (isSel rst : Bool) :
    selectRowRange env s a b isSel rst = selectRowRange env s b a isSel rst := by
  unfold selectRowRange
  cases hA : env.rowsLookup a <;> cases hB : env.rowsLookup b <;> simp [hA, hB]
  rw [rangePair_comm]

/-- C3: selectRowRange is a silent no-op whenever either id is absent from
the row set; otherwise, when both ids occur in the visible sorted row-id
list at positions i and j, it delegates to selectRows over the contiguous
inclusive span of the visible list between those positions. -/
theorem selectRowRange_noop_or_span (env : GridEnv) (s : GridState)
    (a b : GridRowId) (isSel rst : Bool) :
    (env.rowsLookup a = false ∨ env.rowsLookup b = false →
      selectRowRange env s a b isSel rst = s) ∧
    (∀ i j : Nat, env.rowsLookup a = true → env.rowsLookup b = true →
      jsIndexOf env.visibleSortedRowIds a = (i : Int) →
      jsIndexOf env.visibleSortedRowIds b = (j : Int) →
      selectRowRange env s a b isSel rst
        = selectRows env s (inclusiveSpan env.visibleSortedRowIds i j) isSel rst) := by
  constructor
  · intro h
    unfold selectRowRange
    rcases h with h | h <;> simp [h]
  · intro i j ha hb hia hjb
    exact selectRowRange_span env s a b isSel rst i j ha hb hia hjb

/-- C3 witness: in the three-row grid the range r1..r3 delegates to the
span at positions 0..2, and a missing id makes the call a no-op. -/
theorem selectRowRange_noop_or_span_inst :
    selectRowRange envMulti emptyState "r1" "r3" true false
      = selectRows envMulti emptyState
          (inclusiveSpan envMulti.visibleSortedRowIds 0 2) true false ∧
    selectRowRange envMulti emptyState "r1" "missing" true false = emptyState := by
  constructor
  · exact (selectRowRange_noop_or_span envMulti emptyState "r1" "r3" true false).2
      0 2 (by decide) (by decide) (by decide) (by decide)
  · exact (selectRowRange_noop_or_span envMulti emptyState "r1" "missing" true false).1
      (Or.inr (by decide))

/-- C7: the rows-changed effect removes from the selection model exactly
the ids that are no longer present in the rows lookup, invokes
setSelectionModel iff at least one selected id is missing (so iff
something was removed), and leaves the state untouched otherwise. -/
theorem rowsChangedEffect_prunes (env : GridEnv) (s : GridState) :
    ((rowsChangedEffect env s).2 = true ↔
      ∃ id ∈ s.selection, env.rowsLookup id = false) ∧
    ((rowsChangedEffect env s).2 = false → rowsChangedEffect env s = (s, false)) ∧
    (∀ x, x ∈ (rowsChangedEffect env s).1.selection ↔
      x ∈ s.selection ∧ env.rowsLookup x = true) := by
  have hsnd := prune_foldl_snd env s.selection (buildSelectionLookup s.selection) false
  have hfst := prune_foldl_fst env s.selection (buildSelectionLookup s.selection) false
  by_cases hany : s.selection.any (fun id => !env.rowsLookup id) = true
  · have hres2 : (s.selection.foldl
        (fun (acc : List GridRowId × Bool) id =>
          if env.rowsLookup id then acc else (jsObjDelete acc.1 id, true))
        (buildSelectionLookup s.selection, false)).2 = true := by
      rw [hsnd, hany]
      simp
    have heff : rowsChangedEffect env s
        = ({ s with selection := pruneFold env s.selection }, true) := by
      unfold rowsChangedEffect pruneFold
      dsimp only
      rw [if_pos hres2, hfst]
    refine ⟨?_, ?_, ?_⟩
    · rw [heff]
      simp only [true_iff]
      rcases List.any_eq_true.mp hany with ⟨id, hid, hlook⟩
      exact ⟨id, hid, by simpa using hlook⟩
    · rw [heff]
      intro h
      cases h
    · intro x
      rw [heff]
      exact mem_pruneFold env s.selection x
  · have hall : ∀ id ∈ s.selection, env.rowsLookup id = true := by
      intro id hid
      by_contra hmiss
      exact hany (List.any_eq_true.mpr ⟨id, hid, by simpa using hmiss⟩)
    have hres2 : (s.selection.foldl
        (fun (acc : List GridRowId × Bool) id =>
          if env.rowsLookup id then acc else (jsObjDelete acc.1 id, true))
        (buildSelectionLookup s.selection, false)).2 = false := by
      rw [hsnd]
      simpa using hany
    have heff : rowsChangedEffect env s = (s, false) := by
      unfold rowsChangedEffect
      dsimp only
      rw [hres2]
      simp
    refine ⟨?_, ?_, ?_⟩
    · rw [heff]
      simp only [Bool.false_eq_true, false_iff]
      rintro ⟨id, hid, hlook⟩
      rw [hall id hid] at hlook
      cases hlook
    · intro _
      exact heff
    · intro x
      rw [heff]
      dsimp only
      constructor
      · intro hx
        exact ⟨hx, hall x hx⟩
      · rintro ⟨hx, _⟩
        exact hx

/-- C7 witness: the second row is removed from the rows lookup, so it is
pruned and an update is emitted. -/
theorem rowsChangedEffect_prunes_inst :
    ((rowsChangedEffect
        { envMulti with rowsLookup := rowsIn ["r1", "r3"] }
        { selection := ["r1", "r2"], lastRowToggled := none }).2 = true) ∧
    ("r2" ∈ (rowsChangedEffect
        { envMulti with rowsLookup := rowsIn ["r1", "r3"] }
        { selection := ["r1", "r2"], lastRowToggled := none }).1.selection ↔ False) := by
  have h := rowsChangedEffect_prunes
    { envMulti with rowsLookup := rowsIn ["r1", "r3"] }
    { selection := ["r1", "r2"], lastRowToggled := none }
  constructor
  · exact h.1.mpr ⟨"r2", by decide, by decide⟩
  · rw [h.2.2 "r2"]
    decide

theorem set_guard_reject (s : GridState) (ns : List GridRowId) (cm : Bool)
    (hm : cm = false) (hg : 2 ≤ ns.length) :
    (if (ns.length < 2 || cm) = true then { s with selection := ns }
      else s).selection = s.selection := by
  rw [hm]
  have hng : ¬ ((ns.length < 2 || false) = true) := by
    simp only [Bool.or_false, decide_eq_true_eq]
    omega
  rw [if_neg hng]

theorem selectRow_toggle_reject (env : GridEnv) (s : GridState) (id : GridRowId)
    (isSel : Bool) (hm : canHaveMultipleSelection env = false)
    (hsel : rowIsSelectable env id = true)
    (hg : 2 ≤ (if isSel then s.selection.filter (fun el => el != id) ++ [id]
                else s.selection.filter (fun el => el != id)).length) :
    (selectRow env s id isSel false).selection = s.selection := by
  unfold selectRow
  rw [hsel]
  simp only [Bool.not_true, Bool.false_eq_true, if_false]
  exact set_guard_reject { s with lastRowToggled := some id } _ _ hm hg

theorem selectRows_toggle_reject (env : GridEnv) (s : GridState) (ids : List GridRowId)
    (isSel : Bool) (hm : canHaveMultipleSelection env = false)
    (hg : 2 ≤ (toggledBulkSelection env s ids isSel).length) :
    (selectRows env s ids isSel false).selection = s.selection := by
  unfold toggledBulkSelection at hg
  unfold selectRows
  cases hp : env.isRowSelectable
  all_goals
    rw [hp] at hg
    dsimp only at hg ⊢
    simp only [Bool.false_eq_true, if_false]
    exact set_guard_reject s _ _ hm hg

/-- C2, counterexample: with multiple selection disabled and checkbox mode
off, the external-prop synchronization effect applies a two-element prop
model unconditionally, so the selection model ends with length 2. -/
theorem prop_sync_violates_single_selection :
    envSingle.disableMultipleSelection = true ∧ envSingle.checkboxSelection = false ∧
    (propSyncEffect (some ["r1", "r2"]) emptyState).selection.length = 2 := by decide

/-- C2 (amended): with multiple selection disabled and checkbox mode off,
selectRow, selectRows, selectRowRange, expandRowRangeSelection, the
row-click handler, the checkbox-change handler, the rows-changed pruning
effect and the selectability-change effect all keep a selection model of
length at most 1 at length at most 1, and a selectRow or selectRows toggle
whose non-reset result would have two or more entries leaves the model
unchanged; only the external-prop synchronization effect is excluded,
since it applies the prop model unconditionally. -/
theorem single_selection_invariant (env : GridEnv) (s : GridState)
    (hd : env.disableMultipleSelection = true) (hc : env.checkboxSelection = false)
    (hs : s.selection.length ≤ 1) :
    (∀ id isSel rst, (selectRow env s id isSel rst).selection.length ≤ 1) ∧
    (∀ ids isSel rst, (selectRows env s ids isSel rst).selection.length ≤ 1) ∧
    (∀ a b isSel rst, (selectRowRange env s a b isSel rst).selection.length ≤ 1) ∧
    (∀ id, (expandRowRangeSelection env s id).selection.length ≤ 1) ∧
    (∀ id shift ctrl mk, (handleRowClick env s id shift ctrl mk).selection.length ≤ 1) ∧
    (∀ id value shift,
      (handleRowSelectionCheckboxChange env s id value shift).selection.length ≤ 1) ∧
    ((rowsChangedEffect env s).1.selection.length ≤ 1) ∧
    ((selectableChangedEffect env s).selection.length ≤ 1) ∧
    (∀ id isSel, rowIsSelectable env id = true →
      2 ≤ (if isSel then s.selection.filter (fun el => el != id) ++ [id]
           else s.selection.filter (fun el => el != id)).length →
      (selectRow env s id isSel false).selection = s.selection) ∧
    (∀ ids isSel, 2 ≤ (toggledBulkSelection env s ids isSel).length →
      (selectRows env s ids isSel false).selection = s.selection) := by
  have hm : canHaveMultipleSelection env = false := by
    unfold canHaveMultipleSelection
    rw [hd, hc]
    rfl
  refine ⟨?_, ?_, ?_, ?_, ?_, ?_, ?_, ?_, ?_, ?_⟩
  · intro id isSel rst
    exact selectRow_selection_length_le env s id isSel rst hm hs
  · intro ids isSel rst
    exact selectRows_selection_length_le env s ids isSel rst hm hs
  · intro a b isSel rst
    exact selectRowRange_selection_length_le env s a b isSel rst hm hs
  · intro id
    exact expandRowRangeSelection_selection_length_le env s id hm hs
  · intro id shift ctrl mk
    exact handleRowClick_selection_length_le env s id shift ctrl mk hm hc hs
  · intro id value shift
    exact handleRowSelectionCheckboxChange_selection_length_le env s id value shift hm hs
  · exact rowsChangedEffect_selection_length_le env s hs
  · exact selectableChangedEffect_selection_length_le env s hs
  · intro id isSel hsel hg
    exact selectRow_toggle_reject env s id isSel hm hsel hg
  · intro ids isSel hg
    exact selectRows_toggle_reject env s ids isSel hm hg

/-- C2 witness: the single-selection bound at a concrete grid, exercising
selectRow, selectRows and the checkbox-change handler. -/
theorem single_selection_invariant_inst :
    (selectRow envSingle emptyState "r1" true false).selection.length ≤ 1 ∧
    (selectRows envSingle emptyState ["r1", "r2", "r3"] true false).selection.length ≤ 1 ∧
    (handleRowSelectionCheckboxChange envSingle emptyState "r1" true
      false).selection.length ≤ 1 := by
  obtain ⟨h1, h2, h3, h4, h5, h6, h7, h8, h9, h10⟩ :=
    single_selection_invariant envSingle emptyState (by decide) (by decide) (by decide)
  exact ⟨h1 "r1" true false, h2 ["r1", "r2", "r3"] true false, h6 "r1" true false⟩

/-- C5: with selection-on-click enabled, shift not held and the clicked
row selectable: if multi-selection is disallowed, or checkbox mode is off
and no ctrl/meta modifier is held, the click resets the model to just the
clicked row (toggling its state when a modifier or checkbox mode is
active, else always selecting); otherwise it toggles only the clicked
row's membership without resetting others.  Consequently with
multi-selection disallowed and no modifiers, clicking r1 then r2 yields
[r2]. -/
theorem handleRowClick_policy (env : GridEnv) (s : GridState) (id : GridRowId)
    (ctrl mk : Bool)
    (hclick : env.disableSelectionOnClick = false)
    (hsel : rowIsSelectable env id = true) :
    (canHaveMultipleSelection env = false
        ∨ (env.checkboxSelection = false ∧ (mk || ctrl) = false) →
      (handleRowClick env s id false ctrl mk).selection
        = if ((mk || ctrl) || env.checkboxSelection) && isRowSelected s id then []
          else [id]) ∧
    (canHaveMultipleSelection env = true →
      (env.checkboxSelection = true ∨ (mk || ctrl) = true) →
      (handleRowClick env s id false ctrl mk).selection
        = if isRowSelected s id then s.selection.filter (fun el => el != id)
          else s.selection.filter (fun el => el != id) ++ [id]) ∧
    (∀ id2, canHaveMultipleSelection env = false →
      rowIsSelectable env id2 = true →
      (handleRowClick env (handleRowClick env s id false false false) id2
        false false false).selection = [id2]) := by
  refine ⟨?_, ?_, ?_⟩
  · intro hcase
    exact handleRowClick_point_reset env s id ctrl mk hclick hsel hcase
  · intro hm hcase
    exact handleRowClick_point_toggle env s id ctrl mk hclick hsel hm hcase
  · intro id2 hm hsel2
    have h2 := handleRowClick_point_reset env (handleRowClick env s id false false false)
      id2 false false hclick hsel2 (Or.inl hm)
    rw [h2]
    have hcb : env.checkboxSelection = false := by
      unfold canHaveMultipleSelection at hm
      cases hcbv : env.checkboxSelection
      · rfl
      · rw [hcbv] at hm
        simp at hm
    simp [hcb]

/-- C5 witness: checkbox mode off, no modifiers, multi-select disabled;
clicking r1 then r2 leaves exactly [r2] selected. -/
theorem handleRowClick_policy_inst :
    (handleRowClick envSingle (handleRowClick envSingle emptyState "r1" false false false)
      "r2" false false false).selection = ["r2"] :=
  (handleRowClick_policy envSingle emptyState "r1" false false (by decide)
    (by decide)).2.2 "r2" (by decide) (by decide)

/-- C6: expandRowRangeSelection always updates the anchor to the target
id; when the target is not selected it adds the inclusive visible range
from the stored anchor (defaulting to the target) to the target, the span
between their visible positions; when the target is already selected it
moves the end boundary inward by one visible position and delegates to
selectRowRange with the negated selection state (isSelected = false). -/
theorem expandRowRangeSelection_spec (env : GridEnv) (s : GridState) (id : GridRowId) :
    ((expandRowRangeSelection env s id).lastRowToggled = some id) ∧
    (isRowSelected s id = false →
      ∀ i j : Nat, env.isRowSelectable = none → canHaveMultipleSelection env = true →
        env.rowsLookup (s.lastRowToggled.getD id) = true → env.rowsLookup id = true →
        jsIndexOf env.visibleSortedRowIds (s.lastRowToggled.getD id) = (i : Int) →
        jsIndexOf env.visibleSortedRowIds id = (j : Int) →
        ∀ x, x ∈ (expandRowRangeSelection env s id).selection ↔
          x ∈ s.selection ∨ x ∈ inclusiveSpan env.visibleSortedRowIds i j) ∧
    (∀ e2, isRowSelected s id = true →
      (if jsIndexOf env.visibleSortedRowIds (s.lastRowToggled.getD id)
            > jsIndexOf env.visibleSortedRowIds id
        then jsGet env.visibleSortedRowIds (jsIndexOf env.visibleSortedRowIds id + 1)
        else jsGet env.visibleSortedRowIds (jsIndexOf env.visibleSortedRowIds id - 1))
          = some e2 →
      expandRowRangeSelection env s id
        = selectRowRange env { s with lastRowToggled := some id }
            (s.lastRowToggled.getD id) e2 false false) := by
  refine ⟨?_, ?_, ?_⟩
  · cases hsel : isRowSelected s id
    · rw [expand_not_selected_delegates env s id hsel, selectRowRange_lastRowToggled]
    · cases he : (if jsIndexOf env.visibleSortedRowIds (s.lastRowToggled.getD id)
            > jsIndexOf env.visibleSortedRowIds id
          then jsGet env.visibleSortedRowIds (jsIndexOf env.visibleSortedRowIds id + 1)
          else jsGet env.visibleSortedRowIds (jsIndexOf env.visibleSortedRowIds id - 1))
      · rw [expand_selected_oob env s id hsel he]
      · rw [expand_selected_delegates env s id _ hsel he, selectRowRange_lastRowToggled]
  · intro hns i j hp hm hrs hrid hia hjb x
    rw [expand_not_selected_delegates env s id hns]
    rw [selectRowRange_span env { s with lastRowToggled := some id }
      (s.lastRowToggled.getD id) id true false i j hrs hrid hia hjb]
    exact selectRows_mem_select env { s with lastRowToggled := some id } _ hp hm x
  · intro e2 hsel he
    exact expand_selected_delegates env s id e2 hsel he

/-- C6 witness: anchor r1, nothing selected, visible order r1 r2 r3;
shift-expanding to r3 sets the anchor to r3 and makes membership that of
the old selection extended with the span at positions 0..2. -/
theorem expandRowRangeSelection_spec_inst :
    (expandRowRangeSelection envMulti
      { selection := [], lastRowToggled := some "r1" } "r3").lastRowToggled
      = some "r3" ∧
    ("r2" ∈ (expandRowRangeSelection envMulti
      { selection := [], lastRowToggled := some "r1" } "r3").selection ↔
      ("r2" ∈ ([] : List GridRowId) ∨
        "r2" ∈ inclusiveSpan envMulti.visibleSortedRowIds 0 2)) := by
  have h := expandRowRangeSelection_spec envMulti
    { selection := [], lastRowToggled := some "r1" } "r3"
  exact ⟨h.1, h.2.1 (by decide) 0 2 rfl (by decide) (by decide) (by decide) (by decide)
    (by decide) "r2"⟩

/-- C8, counterexample: a resetting selectRows passes its id list through
without dedup, so the model can hold the same id twice; and re-selecting
an already selected id through selectRows leaves it at its existing
position instead of moving it to the end, so the most recently toggled-on
id (r1) is not last. -/
theorem selection_model_order_cex :
    (selectRows envMulti emptyState ["r1", "r1"] true true).selection = ["r1", "r1"] ∧
    (selectRows envMulti { selection := ["r1", "r2"], lastRowToggled := none }
      ["r1"] true false).selection = ["r1", "r2"] := by decide

/-- C8 (amended), for row ids whose key form is not an array index (the
model covers non-index string keys; JS enumerates array-index-like keys
first in ascending numeric order, so the ordering clauses do not transfer
to numeric row ids): the model stays duplicate-free — a non-reset
selectRows dedups through the lookup with no condition on its id list,
while a resetting selectRows passes its ids through and needs them
duplicate-free; order is the insertion order of the lookup: selectRow
moves a (re)selected id to the end, selectRows appends previously
unselected ids at the end in call order and leaves already-selected ids at
their existing positions (re-selecting any list of already-selected ids
leaves the model unchanged). -/
theorem selection_model_order_amended :
    (∀ env s id isSel rst, s.selection.Nodup →
      (selectRow env s id isSel rst).selection.Nodup) ∧
    (∀ env s ids isSel, s.selection.Nodup →
      (selectRows env s ids isSel false).selection.Nodup) ∧
    (∀ env s ids isSel, s.selection.Nodup → ids.Nodup →
      (selectRows env s ids isSel true).selection.Nodup) ∧
    (∀ env s id, rowIsSelectable env id = true → canHaveMultipleSelection env = true →
      (selectRow env s id true false).selection
        = s.selection.filter (fun el => el != id) ++ [id]) ∧
    (∀ env s ids, env.isRowSelectable = none → canHaveMultipleSelection env = true →
      s.selection.Nodup → ids.Nodup → (∀ x ∈ ids, x ∉ s.selection) →
      (selectRows env s ids true false).selection = s.selection ++ ids) ∧
    (∀ env s ids, env.isRowSelectable = none → canHaveMultipleSelection env = true →
      s.selection.Nodup → (∀ x ∈ ids, x ∈ s.selection) →
      (selectRows env s ids true false).selection = s.selection) := by
  refine ⟨?_, ?_, ?_, ?_, ?_, ?_⟩
  · intro env s id isSel rst h
    exact selectRow_nodup env s id isSel rst h
  · intro env s ids isSel h
    exact selectRows_toggle_nodup env s ids isSel h
  · intro env s ids isSel h hids
    exact selectRows_nodup env s ids isSel true h hids
  · intro env s id hsel hm
    rw [selectRow_toggle_multi_eq env s id true hsel hm]
    simp
  · intro env s ids hp hm h hids hdis
    have hfold : ids.foldl jsObjInsert (buildSelectionLookup s.selection)
        = s.selection ++ ids := by
      rw [buildSelectionLookup_eq_self h]
      exact foldl_insert_append ids s.selection hids hdis
    unfold selectRows
    rw [hp, hm]
    simp only [Bool.or_true, Bool.false_eq_true, if_false, if_true]
    simpa using hfold
  · intro env s ids hp hm h hsub
    have hfold : ids.foldl jsObjInsert (buildSelectionLookup s.selection)
        = s.selection := by
      rw [buildSelectionLookup_eq_self h]
      exact foldl_insert_mem_id ids s.selection hsub
    unfold selectRows
    rw [hp, hm]
    simp only [Bool.or_true, Bool.false_eq_true, if_false, if_true]
    simpa using hfold

/-- C8 witness: re-selecting r1 via selectRow moves it to the end, a bulk
select of fresh ids appends them in call order, a duplicated id list on a
non-reset bulk select still yields a duplicate-free model, and
re-selecting already-selected ids (in any order) leaves the model
unchanged. -/
theorem selection_model_order_inst :
    (selectRow envMulti { selection := ["r1", "r2"], lastRowToggled := none }
      "r1" true false).selection = ["r2", "r1"] ∧
    (selectRows envMulti emptyState ["r1", "r2"] true false).selection
      = ["r1", "r2"] ∧
    (selectRows envMulti emptyState ["r1", "r1"] true false).selection.Nodup ∧
    (selectRows envMulti { selection := ["r1", "r2"], lastRowToggled := none }
      ["r2", "r1"] true false).selection = ["r1", "r2"] := by
  have h := selection_model_order_amended
  refine ⟨?_, ?_, ?_, ?_⟩
  · rw [h.2.2.2.1 envMulti { selection := ["r1", "r2"], lastRowToggled := none } "r1"
      (by decide) (by decide)]
    decide
  · rw [h.2.2.2.2.1 envMulti emptyState ["r1", "r2"] rfl (by decide) (by decide)
      (by decide) (by decide)]
    decide
  · exact h.2.1 envMulti emptyState ["r1", "r1"] true (by decide)
  · rw [h.2.2.2.2.2 envMulti { selection := ["r1", "r2"], lastRowToggled := none }
      ["r2", "r1"] rfl (by decide) (by decide) (by decide)]

/-- C10, counterexample: target r1 at visible index 0 with the anchor r3
strictly after it is inside the claim's out-of-bounds characterization,
yet the code computes endId = r2 (in bounds) and deselects the span
r2..r3, changing the model from [r1, r2] to [r1]. -/
theorem expand_contract_cex :
    (expandRowRangeSelection envMulti
      { selection := ["r1", "r2"], lastRowToggled := some "r3" } "r1").selection
      = ["r1"] ∧
    ¬ ((expandRowRangeSelection envMulti
      { selection := ["r1", "r2"], lastRowToggled := some "r3" } "r1").selection
      = ["r1", "r2"]) := by decide

/-- C10 (amended): for a selected target whose visible index is at most 0
while the anchor's index is not greater (target at visible position 0 with
the anchor at the same position or not visible, or both absent from the
visible list), the inward-moved boundary lands out of bounds, endId is
undefined, and the delegated selectRowRange absorbs it: no error, the
selection model is unchanged, and only the anchor is updated to the
target. -/
theorem expand_contract_oob (env : GridEnv) (s : GridState) (id : GridRowId)
    (h : isRowSelected s id = true)
    (hle : jsIndexOf env.visibleSortedRowIds (s.lastRowToggled.getD id)
      ≤ jsIndexOf env.visibleSortedRowIds id)
    (h0 : jsIndexOf env.visibleSortedRowIds id ≤ 0) :
    expandRowRangeSelection env s id = { s with lastRowToggled := some id } := by
  apply expand_selected_oob env s id h
  rw [if_neg (by omega)]
  unfold jsGet
  rw [if_pos (by omega)]

/-- C10 witness: target and anchor both at visible index 0; the expansion
leaves the selection unchanged and only updates the anchor. -/
theorem expand_contract_oob_inst :
    expandRowRangeSelection envMulti
      { selection := ["r1"], lastRowToggled := some "r1" } "r1"
      = { selection := ["r1"], lastRowToggled := some "r1" } :=
  expand_contract_oob envMulti { selection := ["r1"], lastRowToggled := some "r1" }
    "r1" (by decide) (by decide) (by decide)

example : (selectRow envMulti emptyState "r1" true false).selection = ["r1"] := by decide
example :
    (selectRow envMulti (selectRow envMulti emptyState "r1" true false) "r2" true false).selection
      = ["r1", "r2"] := by decide
example :
    (selectRow envSingle { selection := ["r2"], lastRowToggled := none } "r1" true
      false).selection = ["r2"] := by decide
example :
    (selectRowRange envMulti emptyState "r1" "r3" true false).selection
      = ["r1", "r2", "r3"] := by decide
example :
    (selectRowRange envMulti emptyState "r3" "r1" true false).selection
      = ["r1", "r2", "r3"] := by decide
example :
    (expandRowRangeSelection envMulti { selection := [], lastRowToggled := some "r1" }
      "r3").selection = ["r1", "r2", "r3"] := by decide
example :
    (expandRowRangeSelection envMulti
      { selection := ["r1", "r2", "r3"], lastRowToggled := some "r1" } "r3").selection
      = ["r3"] := by decide

end GridSelection
